import Mathlib

/-!
Shallow embedding of the usage-acquisition/caching layer (src/usage.ts) and the
status-rendering logic (src/statusBar.ts, extension entry point) of the
vscode-crs-status extension.  JavaScript numbers are modelled as rationals,
timestamps as integers (milliseconds), and the module-level mutable cache as an
explicit `CacheState` threaded through `getUsageInfo`.  The single external
effect of `getUsageInfo` — the three-call remote fetch performed by
`fetchUsageData` — is passed in as an oracle value of type
`Except String UsageInfo`; the `fetched` flag of the outcome records whether
the oracle was consulted (i.e. whether a network round-trip happened).
-/

namespace CrsStatus

/-- Model of `interface CostInfo` from src/usage.ts. -/
structure CostInfo where
  used : ℚ
  total : ℚ
deriving DecidableEq

/-- Common shape of `DailyUsage`, `MonthlyUsage`, `TotalUsage` from src/usage.ts
(the three interfaces are structurally identical). -/
structure PeriodUsage where
  cost : CostInfo
  tokens : ℚ
deriving DecidableEq

/-- Model of `interface UsageInfo` from src/usage.ts.  `lastUpdate : Date` is modelled
as an integer timestamp; the optional `error` field carries the soft error. -/
structure UsageInfo where
  daily : PeriodUsage
  monthly : PeriodUsage
  total : PeriodUsage
  lastUpdate : Int
  error : Option String
deriving DecidableEq

/-- Constant `CACHE_TTL_MS = 10 * 1000` from src/usage.ts. -/
def CACHE_TTL_MS : Int := 10 * 1000

/-- The module-level mutable cache of src/usage.ts:
`let cachedResult : UsageInfo | null` and `let lastFetchTime = 0`. -/
structure CacheState where
  cachedResult : Option UsageInfo
  lastFetchTime : Int
deriving DecidableEq

/-- Model of `clearCache()` from src/usage.ts: sets `cachedResult = null` and
`lastFetchTime = 0`, unconditionally. -/
def clearCache (_st : CacheState) : CacheState :=
  { cachedResult := none, lastFetchTime := 0 }

/-- Model of `interface UserStatsData` from src/usage.ts.  The nested optional chain
`usage?.total?.allTokens` is flattened to a single optional field: `none`
stands for any missing link of the chain. -/
structure UserStatsData where
  allTokens : Option ℚ
  currentDailyCost : Option ℚ
  dailyCostLimit : Option ℚ
  currentTotalCost : Option ℚ
  totalCostLimit : Option ℚ
deriving DecidableEq

/-- Model of `interface ModelStatsData` from src/usage.ts; `costsTotal` models the
optional chain `costs?.total`. -/
structure ModelStatsData where
  allTokens : Option ℚ
  costsTotal : Option ℚ
deriving DecidableEq

/-- The `reduce` aggregation inside `fetchUsageData`: accumulates
`(tokens, cost)` over the model list, each field defaulting to 0 when absent
(`model.allTokens || 0`, `model.costs?.total || 0`; for a present value the
JavaScript `|| 0` only rewrites `0` to `0`, so `Option.getD 0` is faithful). -/
def monthlyTotals (monthlyModelStats : List ModelStatsData) : ℚ × ℚ :=
  monthlyModelStats.foldl
    (fun acc model => (acc.1 + model.allTokens.getD 0, acc.2 + model.costsTotal.getD 0))
    (0, 0)

/-- Model of `fetchUsageData` from src/usage.ts, after the three remote calls have
produced `stats` and `monthlyModelStats`; `fetchTime` stands for the
`new Date()` stamped on the fresh snapshot. -/
def fetchUsageData (stats : UserStatsData) (monthlyModelStats : List ModelStatsData)
    (fetchTime : Int) : UsageInfo :=
  let totals := monthlyTotals monthlyModelStats
  { daily := { cost := { used := stats.currentDailyCost.getD 0
                         total := stats.dailyCostLimit.getD 0 }
               tokens := stats.allTokens.getD 0 }
    monthly := { cost := { used := totals.2
                           total := 0 }
                 tokens := totals.1 }
    total := { cost := { used := stats.currentTotalCost.getD 0
                         total := stats.totalCostLimit.getD 0 }
               tokens := stats.allTokens.getD 0 }
    lastUpdate := fetchTime
    error := none }

/-- Result of one call to `getUsageInfo`: the value returned (or error thrown),
the cache state after the call, and whether the remote fetch was attempted. -/
structure GetUsageOutcome where
  result : Except String UsageInfo
  st : CacheState
  fetched : Bool

/-- The `try { ... } catch` block of `getUsageInfo` (src/usage.ts lines
224-239): on success store the fresh snapshot with `lastFetchTime = now`; on
failure fall back to a copy of the cached snapshot (cache left untouched) or
rethrow when the cache is empty.  `errNow` is the `new Date()` taken inside the
catch block. -/
def attemptFetch (now errNow : Int) (fetchResult : Except String UsageInfo)
    (st : CacheState) : GetUsageOutcome :=
  match fetchResult with
  | .ok r =>
      { result := .ok r
        st := { cachedResult := some r, lastFetchTime := now }
        fetched := true }
  | .error e =>
      match st.cachedResult with
      | some cached =>
          { result := .ok { cached with lastUpdate := errNow, error := some e }
            st := st
            fetched := true }
      | none => { result := .error e, st := st, fetched := true }

/-- ECMAScript `Number.prototype.toFixed(d)` on a rational: the integer `n`
minimising the distance of `n / 10^d` to `x`, the larger `n` on a tie, then
rendered with exactly `d` fractional digits.  (The negative-zero output of
JavaScript for small negative inputs is not modelled; every use in this
development is on non-negative values.) -/
def jsToFixed (x : ℚ) (d : ℕ) : String :=
  let n : Int := (x * (10 : ℚ) ^ d + 1 / 2).floor
  let sign := if n < 0 then "-" else ""
  let m : ℕ := n.natAbs
  if d = 0 then sign ++ toString m
  else sign ++ toString (m / 10 ^ d) ++ "." ++ (toString (10 ^ d + m % 10 ^ d)).drop 1

/-- Model of `Math.round`: rounds half toward positive infinity. -/
def jsRound (x : ℚ) : Int := (x + 1 / 2).floor

/-- Model of `getUsageInfo(baseUrl, apiKey)` from src/usage.ts.  `now` is the
`Date.now()` taken on entry, `errNow` the `new Date()` of the catch block, and
`fetchResult` the oracle for what `fetchUsageData` would produce if called. -/
def getUsageInfo (baseUrl apiKey : String) (now errNow : Int)
    (fetchResult : Except String UsageInfo) (st : CacheState) : GetUsageOutcome :=
  if baseUrl.isEmpty || apiKey.isEmpty then
    { result := .error "Not configured", st := st, fetched := false }
  else
    match st.cachedResult with
    | some cached =>
        if now - st.lastFetchTime < CACHE_TTL_MS then
          { result := .ok cached, st := st, fetched := false }
        else
          attemptFetch now errNow fetchResult st
    | none => attemptFetch now errNow fetchResult st

/-- Model of `formatCurrency` from src/statusBar.ts: `toFixed(2)` with a dollar sign. -/
def formatCurrency (value : ℚ) : String := "$" ++ jsToFixed value 2

/-- The record returned by `generateProgressBar` on a configured limit. -/
structure ProgressBarInfo where
  bar : String
  text : String
deriving DecidableEq

/-- Model of `generateProgressBar(used, total, width = 25)` from src/statusBar.ts:
`null` when `total <= 0`; otherwise a bar of `Math.round(min(used/total,1)*width)`
filled glyphs padded with empty glyphs, and a one-decimal percentage text. -/
def generateProgressBar (used total : ℚ) (width : ℕ := 25) : Option ProgressBarInfo :=
  if total ≤ 0 then none
  else
    let percentage := min (used / total) 1
    let filled := (jsRound (percentage * width)).toNat
    let empty := width - filled
    some { bar := String.mk (List.replicate filled '▓' ++ List.replicate empty '░')
           text := jsToFixed (percentage * 100) 1 ++ "%" }

/-- One entry of the `limits` array built inside `getMostConstrainedLimit`. -/
structure LimitEntry where
  name : String
  used : ℚ
  total : ℚ
deriving DecidableEq

/-- The record returned by `getMostConstrainedLimit` when a limit exists. -/
structure ConstrainedLimit where
  name : String
  used : ℚ
  total : ℚ
  percentage : ℚ
deriving DecidableEq

/-- The `limits` array of `getMostConstrainedLimit` (src/statusBar.ts lines
70-92): one entry per period whose `cost.total > 0`, pushed in the fixed order
Daily, Monthly, Total. -/
def limitEntries (u : UsageInfo) : List LimitEntry :=
  (if u.daily.cost.total > 0 then
    [{ name := "Daily", used := u.daily.cost.used, total := u.daily.cost.total }]
  else []) ++
  (if u.monthly.cost.total > 0 then
    [{ name := "Monthly", used := u.monthly.cost.used, total := u.monthly.cost.total }]
  else []) ++
  (if u.total.cost.total > 0 then
    [{ name := "Total", used := u.total.cost.used, total := u.total.cost.total }]
  else [])

/-- Remaining budget of a limit entry, `total - used`. -/
def remaining (l : LimitEntry) : ℚ := l.total - l.used

/-- The scan loop of `getMostConstrainedLimit` (src/statusBar.ts lines 99-108):
starts from `limits[0]` and replaces the current best exactly when a later
entry has strictly smaller remaining budget. -/
def selectMostConstrained (first : LimitEntry) (rest : List LimitEntry) : LimitEntry :=
  rest.foldl (fun best cur => if remaining cur < remaining best then cur else best) first

/-- Model of `getMostConstrainedLimit` from src/statusBar.ts. -/
def getMostConstrainedLimit (u : UsageInfo) : Option ConstrainedLimit :=
  match limitEntries u with
  | [] => none
  | first :: rest =>
      let mc := selectMostConstrained first rest
      some { name := mc.name, used := mc.used, total := mc.total
             percentage := mc.used / mc.total * 100 }

/-- Whether `x` has the least remaining budget among the entries of `L`. -/
def isMinIn (L : List LimitEntry) (x : LimitEntry) : Bool :=
  L.all fun y => decide (remaining x ≤ remaining y)

/-- Spec-side rendering of the most-constrained-limit selection, written from
the claim's words rather than from the source loop: among the periods with a
configured limit (in the fixed order Daily, Monthly, Total), the first one
whose remaining budget is least. -/
def mostConstrainedSpec (u : UsageInfo) : Option ConstrainedLimit :=
  match (limitEntries u).find? (isMinIn (limitEntries u)) with
  | none => none
  | some m => some { name := m.name, used := m.used, total := m.total
                     percentage := m.used / m.total * 100 }

/-- Model of `formatStatusBarText(usageInfo, showAmount)` from src/statusBar.ts:
icon only when no limit is configured; otherwise the one-decimal percentage of
the most constrained limit, optionally followed by its one-decimal used/total
amounts. -/
def formatStatusBarText (u : UsageInfo) (showAmount : Bool) : String :=
  match getMostConstrainedLimit u with
  | none => "$(credit-card)"
  | some c =>
      let percentage := jsToFixed c.percentage 1
      if !showAmount then "$(credit-card) " ++ percentage ++ "%"
      else
        "$(credit-card) " ++ percentage ++ "% ($" ++ jsToFixed c.used 1 ++ "/$" ++
          jsToFixed c.total 1 ++ ")"

/-- The mutually exclusive display states the status bar item can be put in by
the extension entry point (`showConfigRequired`, `showLoading`, `showError`,
`showReady` + `updateTooltip`). -/
inductive DisplayState where
  | configRequired
  | loading
  | error (message : String)
  | ready (usage : UsageInfo)
deriving DecidableEq

/-- The final display state produced by one run of `refreshUsageData`
(extension entry point, lines 37-67): config check first; then a successful
`getUsageInfo` whose snapshot carries a soft `error` is re-thrown and lands in
the hard error state, a clean snapshot lands in the ready state, and a
propagated failure lands in the hard error state. -/
def refreshUsageData (configured : Bool) (getResult : Except String UsageInfo) :
    DisplayState :=
  if !configured then .configRequired
  else
    match getResult with
    | .ok usageData =>
        match usageData.error with
        | some e => .error e
        | none => .ready usageData
    | .error e => .error e

/-! Theorems -/

/-- The empty string is empty, as a reducing Bool equation for `simp`. -/
lemma emptyStr_isEmpty : "".isEmpty = true := rfl

/-- Claim C7: a call to `getUsageInfo` with an empty `baseUrl` or an empty
`apiKey` fails with the configuration error "Not configured" before the cache
is consulted: the cache state is returned unchanged and no fetch is attempted,
regardless of the cache contents. -/
theorem claim_C7 (baseUrl apiKey : String) (now errNow : Int)
    (fetchResult : Except String UsageInfo) (st : CacheState)
    (h : baseUrl = "" ∨ apiKey = "") :
    getUsageInfo baseUrl apiKey now errNow fetchResult st =
      { result := .error "Not configured", st := st, fetched := false } := by
  rcases h with h | h <;> subst h <;> simp [getUsageInfo, emptyStr_isEmpty]

/-- Closed instance of claim C7 at a concrete input. -/
theorem claim_C7_witness :
    getUsageInfo "" "some-key" 3 4 (.error "boom")
        { cachedResult := none, lastFetchTime := 0 } =
      { result := .error "Not configured"
        st := { cachedResult := none, lastFetchTime := 0 }
        fetched := false } :=
  claim_C7 "" "some-key" 3 4 (.error "boom")
    { cachedResult := none, lastFetchTime := 0 } (Or.inl rfl)

/-- Claim C6: `clearCache` unconditionally empties the cache; with a cleared
(or otherwise empty) cache and non-empty arguments the very next
`getUsageInfo` call attempts the fetch regardless of elapsed time, and a
failing fetch then has no fallback: the error is propagated to the caller. -/
theorem claim_C6 :
    (∀ st, clearCache st = { cachedResult := none, lastFetchTime := 0 })
    ∧ (∀ st baseUrl apiKey now errNow fetchResult,
        baseUrl.isEmpty = false → apiKey.isEmpty = false →
        (getUsageInfo baseUrl apiKey now errNow fetchResult (clearCache st)).fetched
          = true)
    ∧ (∀ st baseUrl apiKey now errNow e,
        st.cachedResult = none →
        baseUrl.isEmpty = false → apiKey.isEmpty = false →
        getUsageInfo baseUrl apiKey now errNow (.error e) st =
          { result := .error e, st := st, fetched := true }) := by
  refine ⟨fun st => rfl, ?_, ?_⟩
  · intro st baseUrl apiKey now errNow fetchResult hb hk
    cases fetchResult <;> simp [getUsageInfo, clearCache, attemptFetch, hb, hk]
  · intro st baseUrl apiKey now errNow e hc hb hk
    simp [getUsageInfo, attemptFetch, hb, hk, hc]

/-- Closed instance of claim C6 at concrete inputs. -/
theorem claim_C6_witness :
    getUsageInfo "http://u" "k" 5 6 (.error "down")
        (clearCache { cachedResult := none, lastFetchTime := 99 }) =
      { result := .error "down"
        st := { cachedResult := none, lastFetchTime := 0 }
        fetched := true } :=
  claim_C6.2.2 (clearCache { cachedResult := none, lastFetchTime := 99 })
    "http://u" "k" 5 6 "down" rfl rfl rfl

/-- Claim C1: when the fetch fails and a snapshot is cached (the call having
reached the fetch path because the TTL expired), `getUsageInfo` does not
raise: it returns a copy of the cached snapshot with identical
daily/monthly/total figures, `lastUpdate` refreshed to the catch-block time
and the error message attached, while the cache's stored pair is left
completely unchanged — so a later call after TTL expiry attempts the network
again. -/
theorem claim_C1 (baseUrl apiKey : String) (now errNow : Int) (st : CacheState)
    (cached : UsageInfo) (e : String)
    (hb : baseUrl.isEmpty = false) (hk : apiKey.isEmpty = false)
    (hc : st.cachedResult = some cached)
    (hstale : ¬ now - st.lastFetchTime < CACHE_TTL_MS) :
    (∃ fb, (getUsageInfo baseUrl apiKey now errNow (.error e) st).result = .ok fb
      ∧ fb.daily = cached.daily ∧ fb.monthly = cached.monthly
      ∧ fb.total = cached.total ∧ fb.lastUpdate = errNow ∧ fb.error = some e)
    ∧ (getUsageInfo baseUrl apiKey now errNow (.error e) st).st = st
    ∧ ∀ now2 errNow2 fr2, ¬ now2 - st.lastFetchTime < CACHE_TTL_MS →
        (getUsageInfo baseUrl apiKey now2 errNow2 fr2
            (getUsageInfo baseUrl apiKey now errNow (.error e) st).st).fetched
          = true := by
  have hout : getUsageInfo baseUrl apiKey now errNow (.error e) st =
      { result := .ok { cached with lastUpdate := errNow, error := some e }
        st := st
        fetched := true } := by
    simp [getUsageInfo, attemptFetch, hb, hk, hc, hstale]
  refine ⟨⟨{ cached with lastUpdate := errNow, error := some e }, ?_, rfl, rfl, rfl, rfl, rfl⟩,
    ?_, ?_⟩
  · rw [hout]
  · rw [hout]
  · intro now2 errNow2 fr2 hstale2
    rw [hout]
    cases fr2 <;> simp [getUsageInfo, attemptFetch, hb, hk, hc, hstale2]

/-- A concrete snapshot used by the closed witness instances. -/
def sampleSnapshot : UsageInfo :=
  { daily := { cost := { used := 5, total := 10 }, tokens := 100 }
    monthly := { cost := { used := 3, total := 0 }, tokens := 200 }
    total := { cost := { used := 7, total := 20 }, tokens := 100 }
    lastUpdate := 1000
    error := none }

/-- Closed instance of claim C1 at concrete inputs. -/
theorem claim_C1_witness :
    (∃ fb, (getUsageInfo "http://u" "k" 20000 20001 (.error "down")
          { cachedResult := some sampleSnapshot, lastFetchTime := 0 }).result = .ok fb
      ∧ fb.daily = sampleSnapshot.daily ∧ fb.monthly = sampleSnapshot.monthly
      ∧ fb.total = sampleSnapshot.total ∧ fb.lastUpdate = 20001
      ∧ fb.error = some "down")
    ∧ (getUsageInfo "http://u" "k" 20000 20001 (.error "down")
        { cachedResult := some sampleSnapshot, lastFetchTime := 0 }).st =
      { cachedResult := some sampleSnapshot, lastFetchTime := 0 }
    ∧ ∀ now2 errNow2 fr2,
        ¬ now2 - (0 : Int) < CACHE_TTL_MS →
        (getUsageInfo "http://u" "k" now2 errNow2 fr2
            (getUsageInfo "http://u" "k" 20000 20001 (.error "down")
              { cachedResult := some sampleSnapshot, lastFetchTime := 0 }).st).fetched
          = true :=
  claim_C1 "http://u" "k" 20000 20001
    { cachedResult := some sampleSnapshot, lastFetchTime := 0 }
    sampleSnapshot "down" rfl rfl rfl (by decide)

/-- Claim C2: with non-empty arguments, a cached snapshot stored strictly less
than the 10-second TTL ago is returned verbatim with no network attempt and no
cache change; with an empty or expired cache the fetch is attempted, a
successful fetch replaces the cached pair wholesale, and a second call within
one TTL window of a successful first call makes no further network attempt and
returns that snapshot verbatim. -/
theorem claim_C2 (baseUrl apiKey : String) (now errNow : Int)
    (fetchResult : Except String UsageInfo) (st : CacheState)
    (hb : baseUrl.isEmpty = false) (hk : apiKey.isEmpty = false) :
    (∀ cached, st.cachedResult = some cached →
        now - st.lastFetchTime < CACHE_TTL_MS →
        getUsageInfo baseUrl apiKey now errNow fetchResult st =
          { result := .ok cached, st := st, fetched := false })
    ∧ (st.cachedResult = none ∨ ¬ now - st.lastFetchTime < CACHE_TTL_MS →
        (getUsageInfo baseUrl apiKey now errNow fetchResult st).fetched = true)
    ∧ (∀ fresh, fetchResult = .ok fresh →
        (st.cachedResult = none ∨ ¬ now - st.lastFetchTime < CACHE_TTL_MS) →
        getUsageInfo baseUrl apiKey now errNow fetchResult st =
          { result := .ok fresh
            st := { cachedResult := some fresh, lastFetchTime := now }
            fetched := true })
    ∧ (∀ fresh now2 errNow2 fr2, fetchResult = .ok fresh →
        (st.cachedResult = none ∨ ¬ now - st.lastFetchTime < CACHE_TTL_MS) →
        now2 - now < CACHE_TTL_MS →
        getUsageInfo baseUrl apiKey now2 errNow2 fr2
            (getUsageInfo baseUrl apiKey now errNow fetchResult st).st =
          { result := .ok fresh
            st := (getUsageInfo baseUrl apiKey now errNow fetchResult st).st
            fetched := false }) := by
  have hfetch : ∀ st2 : CacheState,
      (st2.cachedResult = none ∨ ¬ now - st2.lastFetchTime < CACHE_TTL_MS) →
      getUsageInfo baseUrl apiKey now errNow fetchResult st2 =
        attemptFetch now errNow fetchResult st2 := by
    intro st2 h2
    rcases h2 with h2 | h2
    · simp [getUsageInfo, hb, hk, h2]
    · cases hcr : st2.cachedResult <;> simp [getUsageInfo, hb, hk, hcr, h2]
  refine ⟨?_, ?_, ?_, ?_⟩
  · intro cached hc hfreshTtl
    simp [getUsageInfo, hb, hk, hc, hfreshTtl]
  · intro h2
    rw [hfetch st h2]
    cases fetchResult <;> cases hcr : st.cachedResult <;>
      simp [attemptFetch, hcr]
  · intro fresh hfr h2
    subst hfr
    rw [hfetch st h2]
    simp [attemptFetch]
  · intro fresh now2 errNow2 fr2 hfr h2 hwin
    subst hfr
    rw [hfetch st h2]
    simp [getUsageInfo, attemptFetch, hb, hk, hwin]

/-- Closed instance of claim C2 at concrete inputs. -/
theorem claim_C2_witness :
    (∀ cached,
        ({ cachedResult := none, lastFetchTime := 0 } : CacheState).cachedResult
          = some cached →
        (7 : Int) - 0 < CACHE_TTL_MS →
        getUsageInfo "http://u" "k" 7 8 (.ok sampleSnapshot)
            { cachedResult := none, lastFetchTime := 0 } =
          { result := .ok cached
            st := { cachedResult := none, lastFetchTime := 0 }
            fetched := false })
    ∧ ((Option.none = (none : Option UsageInfo) ∨ ¬ (7 : Int) - 0 < CACHE_TTL_MS) →
        (getUsageInfo "http://u" "k" 7 8 (.ok sampleSnapshot)
          { cachedResult := none, lastFetchTime := 0 }).fetched = true)
    ∧ (∀ fresh,
        (Except.ok sampleSnapshot : Except String UsageInfo) = .ok fresh →
        ((none : Option UsageInfo) = none ∨ ¬ (7 : Int) - 0 < CACHE_TTL_MS) →
        getUsageInfo "http://u" "k" 7 8 (.ok sampleSnapshot)
            { cachedResult := none, lastFetchTime := 0 } =
          { result := .ok fresh
            st := { cachedResult := some fresh, lastFetchTime := 7 }
            fetched := true })
    ∧ (∀ fresh now2 errNow2 fr2,
        (Except.ok sampleSnapshot : Except String UsageInfo) = .ok fresh →
        ((none : Option UsageInfo) = none ∨ ¬ (7 : Int) - 0 < CACHE_TTL_MS) →
        now2 - 7 < CACHE_TTL_MS →
        getUsageInfo "http://u" "k" now2 errNow2 fr2
            (getUsageInfo "http://u" "k" 7 8 (.ok sampleSnapshot)
              { cachedResult := none, lastFetchTime := 0 }).st =
          { result := .ok fresh
            st := (getUsageInfo "http://u" "k" 7 8 (.ok sampleSnapshot)
              { cachedResult := none, lastFetchTime := 0 }).st
            fetched := false }) :=
  claim_C2 "http://u" "k" 7 8 (.ok sampleSnapshot)
    { cachedResult := none, lastFetchTime := 0 } rfl rfl

/-- A soft-error-fallback snapshot: stale figures with a soft error attached,
exactly what `getUsageInfo` returns after a failed refresh over a warm cache. -/
def fallbackSnapshot : UsageInfo :=
  { sampleSnapshot with lastUpdate := 2000, error := some "network down" }

/-- Claim C3 is false on the code: a refresh that completes with a
soft-error-fallback snapshot does not enter the Ready state — the extension
entry point re-throws the snapshot's soft error and lands in the hard Error
state, even though a fallback snapshot exists. -/
theorem claim_C3_counterexample :
    refreshUsageData true (.ok fallbackSnapshot) = .error "network down"
    ∧ refreshUsageData true (.ok fallbackSnapshot) ≠ .ready fallbackSnapshot := by
  exact ⟨rfl, by decide⟩

/-- Claim C3 amended: when a refresh completes with a soft-error-fallback
snapshot (`error` set), the display enters the hard Error state carrying the
soft error's message — the stale figures are not shown; the Ready state is
entered exactly on a snapshot with no soft error, and a propagated failure
also lands in the hard Error state. -/
theorem claim_C3_amended :
    (∀ u e, u.error = some e → refreshUsageData true (.ok u) = .error e)
    ∧ (∀ u, u.error = none → refreshUsageData true (.ok u) = .ready u)
    ∧ (∀ e, refreshUsageData true (.error e) = .error e)
    ∧ (∀ r, refreshUsageData false r = .configRequired) := by
  refine ⟨?_, ?_, fun e => rfl, fun r => rfl⟩
  · intro u e he
    simp [refreshUsageData, he]
  · intro u he
    simp [refreshUsageData, he]

/-- Closed instance of the amended claim C3 at concrete inputs. -/
theorem claim_C3_amended_witness :
    refreshUsageData true (.ok fallbackSnapshot) = .error "network down"
    ∧ refreshUsageData true (.ok sampleSnapshot) = .ready sampleSnapshot :=
  ⟨claim_C3_amended.1 fallbackSnapshot "network down" rfl,
   claim_C3_amended.2.1 sampleSnapshot rfl⟩

/-- The pair accumulated by the `reduce` of `fetchUsageData` equals the two
sums of the defaulted fields, for any starting accumulator. -/
lemma monthlyTotals_go (l : List ModelStatsData) (a b : ℚ) :
    l.foldl
        (fun acc model =>
          (acc.1 + model.allTokens.getD 0, acc.2 + model.costsTotal.getD 0))
        (a, b)
      = (a + (l.map fun m => m.allTokens.getD 0).sum,
         b + (l.map fun m => m.costsTotal.getD 0).sum) := by
  induction l generalizing a b with
  | nil => simp
  | cons m t ih =>
      simp only [List.foldl_cons, List.map_cons, List.sum_cons, ih]
      rw [Prod.mk.injEq]
      constructor <;> ring

/-- The aggregated monthly totals are the sums over the model list. -/
lemma monthlyTotals_eq (l : List ModelStatsData) :
    monthlyTotals l
      = ((l.map fun m => m.allTokens.getD 0).sum,
         (l.map fun m => m.costsTotal.getD 0).sum) := by
  simpa using monthlyTotals_go l 0 0

/-- Claim C8: every successfully fetched snapshot has daily cost
`(currentDailyCost, dailyCostLimit)`, monthly cost used equal to the sum of
`cost` over the model breakdown with total always the unlimited sentinel 0,
monthly tokens equal to the sum of `allTokens` over the breakdown, total cost
`(currentTotalCost, totalCostLimit)`, and total tokens equal to daily tokens —
both being the account-level `allTokens` figure (absent fields defaulting to
0); the two breakdown sums are order-independent and an empty breakdown yields
zero totals. -/
theorem claim_C8 :
    (∀ stats l t,
      (fetchUsageData stats l t).daily.cost.used = stats.currentDailyCost.getD 0
      ∧ (fetchUsageData stats l t).daily.cost.total = stats.dailyCostLimit.getD 0
      ∧ (fetchUsageData stats l t).monthly.cost.used
          = (l.map fun m => m.costsTotal.getD 0).sum
      ∧ (fetchUsageData stats l t).monthly.cost.total = 0
      ∧ (fetchUsageData stats l t).monthly.tokens
          = (l.map fun m => m.allTokens.getD 0).sum
      ∧ (fetchUsageData stats l t).total.cost.used = stats.currentTotalCost.getD 0
      ∧ (fetchUsageData stats l t).total.cost.total = stats.totalCostLimit.getD 0
      ∧ (fetchUsageData stats l t).total.tokens = (fetchUsageData stats l t).daily.tokens
      ∧ (fetchUsageData stats l t).daily.tokens = stats.allTokens.getD 0)
    ∧ (∀ stats t (l1 l2 : List ModelStatsData), l1.Perm l2 →
        fetchUsageData stats l1 t = fetchUsageData stats l2 t)
    ∧ (∀ stats t, (fetchUsageData stats [] t).monthly.cost.used = 0
        ∧ (fetchUsageData stats [] t).monthly.tokens = 0) := by
  refine ⟨?_, ?_, ?_⟩
  · intro stats l t
    simp [fetchUsageData, monthlyTotals_eq]
  · intro stats t l1 l2 hperm
    simp only [fetchUsageData, monthlyTotals_eq]
    rw [(hperm.map fun m => m.allTokens.getD 0).sum_eq,
        (hperm.map fun m => m.costsTotal.getD 0).sum_eq]
  · intro stats t
    simp [fetchUsageData, monthlyTotals]

/-- Closed instance of claim C8's order-independence at concrete inputs. -/
theorem claim_C8_witness :
    fetchUsageData
        { allTokens := some 100, currentDailyCost := some 5, dailyCostLimit := some 10
          currentTotalCost := some 7, totalCostLimit := none }
        [{ allTokens := some 1, costsTotal := some 2 },
         { allTokens := some 3, costsTotal := none }] 0
      = fetchUsageData
          { allTokens := some 100, currentDailyCost := some 5, dailyCostLimit := some 10
            currentTotalCost := some 7, totalCostLimit := none }
          [{ allTokens := some 3, costsTotal := none },
           { allTokens := some 1, costsTotal := some 2 }] 0 :=
  claim_C8.2.1
    { allTokens := some 100, currentDailyCost := some 5, dailyCostLimit := some 10
      currentTotalCost := some 7, totalCostLimit := none } 0
    [{ allTokens := some 1, costsTotal := some 2 },
     { allTokens := some 3, costsTotal := none }]
    [{ allTokens := some 3, costsTotal := none },
     { allTokens := some 1, costsTotal := some 2 }]
    (List.Perm.swap _ _ _)

/-- Non-negativity of every numeric leaf of a snapshot. -/
def snapshotNonneg (u : UsageInfo) : Prop :=
  0 ≤ u.daily.cost.used ∧ 0 ≤ u.daily.cost.total ∧ 0 ≤ u.daily.tokens
  ∧ 0 ≤ u.monthly.cost.used ∧ 0 ≤ u.monthly.cost.total ∧ 0 ≤ u.monthly.tokens
  ∧ 0 ≤ u.total.cost.used ∧ 0 ≤ u.total.cost.total ∧ 0 ≤ u.total.tokens

/-- All present fields of an account-stats response are non-negative. -/
def statsNonneg (stats : UserStatsData) : Prop :=
  (∀ x ∈ stats.allTokens, 0 ≤ x) ∧ (∀ x ∈ stats.currentDailyCost, 0 ≤ x)
  ∧ (∀ x ∈ stats.dailyCostLimit, 0 ≤ x) ∧ (∀ x ∈ stats.currentTotalCost, 0 ≤ x)
  ∧ (∀ x ∈ stats.totalCostLimit, 0 ≤ x)

/-- All present fields of one model-breakdown entry are non-negative. -/
def modelNonneg (m : ModelStatsData) : Prop :=
  (∀ x ∈ m.allTokens, 0 ≤ x) ∧ (∀ x ∈ m.costsTotal, 0 ≤ x)

/-- Claim C9 is false on the code: the fetch path performs no clamping, so a
remote response whose `currentDailyCost` is -1 produces a snapshot with a
negative `daily.cost.used` — non-negativity does not hold for every numeric
field value the remote can send. -/
theorem claim_C9_counterexample :
    ¬ snapshotNonneg
        (fetchUsageData
          { allTokens := none, currentDailyCost := some (-1), dailyCostLimit := none
            currentTotalCost := none, totalCostLimit := none }
          [] 0) := by
  intro h
  have h1 := h.1
  simp [fetchUsageData, monthlyTotals] at h1
  exact absurd h1 (by norm_num)

/-- A defaulted optional field stays non-negative when every present value is. -/
lemma getD_nonneg (o : Option ℚ) (h : ∀ x ∈ o, 0 ≤ x) : 0 ≤ o.getD 0 := by
  cases o with
  | none => simp
  | some x => exact h x rfl

/-- Claim C9 amended: every snapshot produced by a successful fetch from a
remote response all of whose present numeric fields are non-negative (absent
fields defaulting to 0) has non-negative used, total and tokens values in all
three periods. -/
theorem claim_C9_amended (stats : UserStatsData) (l : List ModelStatsData) (t : Int)
    (hs : statsNonneg stats) (hl : ∀ m ∈ l, modelNonneg m) :
    snapshotNonneg (fetchUsageData stats l t) := by
  obtain ⟨h1, h2, h3, h4, h5⟩ := hs
  have htok : 0 ≤ (l.map fun m => m.allTokens.getD 0).sum := by
    apply List.sum_nonneg
    intro x hx
    obtain ⟨m, hm, rfl⟩ := List.mem_map.mp hx
    exact getD_nonneg _ (hl m hm).1
  have hcost : 0 ≤ (l.map fun m => m.costsTotal.getD 0).sum := by
    apply List.sum_nonneg
    intro x hx
    obtain ⟨m, hm, rfl⟩ := List.mem_map.mp hx
    exact getD_nonneg _ (hl m hm).2
  refine ⟨?_, ?_, ?_, ?_, ?_, ?_, ?_, ?_, ?_⟩ <;>
    simp [fetchUsageData, monthlyTotals_eq] <;>
    first
      | exact getD_nonneg _ h1
      | exact getD_nonneg _ h2
      | exact getD_nonneg _ h3
      | exact getD_nonneg _ h4
      | exact getD_nonneg _ h5
      | exact htok
      | exact hcost

/-- Closed instance of the amended claim C9 at concrete inputs. -/
theorem claim_C9_amended_witness :
    snapshotNonneg
      (fetchUsageData
        { allTokens := some 100, currentDailyCost := some 5, dailyCostLimit := some 10
          currentTotalCost := some 7, totalCostLimit := none }
        [{ allTokens := some 1, costsTotal := some 2 }] 0) :=
  claim_C9_amended _ _ 0
    (by refine ⟨?_, ?_, ?_, ?_, ?_⟩ <;> intro x hx <;> simp at hx <;>
          rw [← hx] <;> norm_num)
    (by
      intro m hm
      simp at hm
      subst hm
      exact ⟨by intro x hx; simp at hx; rw [← hx]; norm_num,
             by intro x hx; simp at hx; rw [← hx]; norm_num⟩)

/-- The executable `Rat.floor` used by the rounding helpers agrees with the
mathematical floor. -/
lemma ratFloor_eq_intFloor (q : ℚ) : q.floor = ⌊q⌋ :=
  (Rat.floor_def' q).trans Rat.floor_def.symm

/-- Claim C10: a period with `total == 0` never produces a progress bar,
regardless of `used`; for `total > 0` (and the non-negative `used` of the data
model) the bar has exactly 25 cells whose filled and empty glyph counts sum to
25, the filled proportion is `min(used/total, 1)` rounded onto the 25 cells —
so over-limit usage never exceeds a full bar — and the percentage text is that
clamped proportion times 100 with one decimal place. -/
theorem claim_C10 :
    (∀ used : ℚ, generateProgressBar used 0 = none)
    ∧ (∀ used total : ℚ, 0 ≤ used → 0 < total →
        ∃ pb, generateProgressBar used total = some pb
          ∧ pb.bar.length = 25
          ∧ pb.bar.toList.count '▓' = (jsRound (min (used / total) 1 * 25)).toNat
          ∧ pb.bar.toList.count '░' = 25 - (jsRound (min (used / total) 1 * 25)).toNat
          ∧ (jsRound (min (used / total) 1 * 25)).toNat ≤ 25
          ∧ pb.text = jsToFixed (min (used / total) 1 * 100) 1 ++ "%") := by
  constructor
  · intro used
    simp [generateProgressBar]
  · intro used total hu ht
    have hp1 : min (used / total) 1 ≤ 1 := min_le_right _ _
    have hcast : ((25 : ℕ) : ℚ) = (25 : ℚ) := by norm_num
    have hf25 : (jsRound (min (used / total) 1 * 25)).toNat ≤ 25 := by
      rw [Int.toNat_le, jsRound, ratFloor_eq_intFloor]
      have hle : min (used / total) 1 * 25 + 1 / 2 ≤ (51 : ℚ) / 2 := by nlinarith
      calc ⌊min (used / total) 1 * 25 + 1 / 2⌋ ≤ ⌊(51 : ℚ) / 2⌋ :=
            Int.floor_le_floor hle
        _ = 25 := by norm_num
    have hgen : generateProgressBar used total =
        some { bar := String.mk
                 (List.replicate (jsRound (min (used / total) 1 * 25)).toNat '▓' ++
                  List.replicate (25 - (jsRound (min (used / total) 1 * 25)).toNat) '░')
               text := jsToFixed (min (used / total) 1 * 100) 1 ++ "%" } := by
      rw [generateProgressBar, if_neg (not_le.mpr ht)]
      rw [hcast]
    refine ⟨_, hgen, ?_, ?_, ?_, hf25, rfl⟩
    · show (List.replicate (jsRound (min (used / total) 1 * 25)).toNat '▓' ++
          List.replicate (25 - (jsRound (min (used / total) 1 * 25)).toNat) '░').length = 25
      rw [List.length_append, List.length_replicate, List.length_replicate]
      omega
    · show (List.replicate (jsRound (min (used / total) 1 * 25)).toNat '▓' ++
          List.replicate (25 - (jsRound (min (used / total) 1 * 25)).toNat) '░').count '▓'
        = (jsRound (min (used / total) 1 * 25)).toNat
      rw [List.count_append, List.count_replicate_self, List.count_replicate]
      norm_num
      intro h
      exact absurd h (by decide)
    · show (List.replicate (jsRound (min (used / total) 1 * 25)).toNat '▓' ++
          List.replicate (25 - (jsRound (min (used / total) 1 * 25)).toNat) '░').count '░'
        = 25 - (jsRound (min (used / total) 1 * 25)).toNat
      rw [List.count_append, List.count_replicate_self, List.count_replicate]
      norm_num
      intro h
      exact absurd h (by decide)

/-- Closed instance of claim C10 at a concrete input: a half-used limit. -/
theorem claim_C10_witness :
    ∃ pb, generateProgressBar 5 10 = some pb
      ∧ pb.bar.length = 25
      ∧ pb.bar.toList.count '▓' = (jsRound (min ((5 : ℚ) / 10) 1 * 25)).toNat
      ∧ pb.bar.toList.count '░' = 25 - (jsRound (min ((5 : ℚ) / 10) 1 * 25)).toNat
      ∧ (jsRound (min ((5 : ℚ) / 10) 1 * 25)).toNat ≤ 25
      ∧ pb.text = jsToFixed (min ((5 : ℚ) / 10) 1 * 100) 1 ++ "%" :=
  claim_C10.2 5 10 (by norm_num) (by norm_num)

/-- A Bool that is not true is false. -/
lemma boolFalse {b : Bool} (h : ¬ b = true) : b = false := by
  cases b
  · rfl
  · exact absurd rfl h

/-- A Bool that is false is not true. -/
lemma boolNotTrue {b : Bool} (h : b = false) : ¬ b = true := by
  subst h
  simp

/-- Lemma: `find?` only depends on the predicate's values on the list. -/
lemma findCongr {α : Type} (p q : α → Bool) :
    ∀ l : List α, (∀ x ∈ l, p x = q x) → l.find? p = l.find? q := by
  intro l
  induction l with
  | nil => intro _; rfl
  | cons a t ih =>
      intro h
      have ha := h a (List.mem_cons_self a t)
      cases hq : q a
      · rw [List.find?_cons_of_neg t (boolNotTrue (ha.trans hq)),
            List.find?_cons_of_neg t (boolNotTrue hq)]
        exact ih fun x hx => h x (List.mem_cons_of_mem a hx)
      · rw [List.find?_cons_of_pos t (ha.trans hq), List.find?_cons_of_pos t hq]

/-- Membership characterisation of `isMinIn`. -/
lemma isMinIn_iff (L : List LimitEntry) (x : LimitEntry) :
    isMinIn L x = true ↔ ∀ y ∈ L, remaining x ≤ remaining y := by
  simp [isMinIn]

/-- The strict-improvement scan of the source loop returns exactly the first
list entry attaining the minimal remaining budget. -/
lemma selectMostConstrained_eq_find (first : LimitEntry) (rest : List LimitEntry) :
    (first :: rest).find? (isMinIn (first :: rest))
      = some (selectMostConstrained first rest) := by
  induction rest generalizing first with
  | nil =>
      have hmin : isMinIn [first] first = true := by
        rw [isMinIn_iff]
        intro y hy
        rw [List.mem_singleton.mp hy]
      rw [List.find?_cons_of_pos _ hmin]
      rfl
  | cons c t ih =>
      by_cases h : remaining c < remaining first
      · have hsel : selectMostConstrained first (c :: t) = selectMostConstrained c t := by
          simp [selectMostConstrained, List.foldl_cons, if_pos h]
        rw [hsel, ← ih c]
        have hfirst : ¬ isMinIn (first :: c :: t) first = true := by
          intro hmin
          rw [isMinIn_iff] at hmin
          exact absurd (hmin c (by simp)) (not_le.mpr h)
        rw [List.find?_cons_of_neg _ hfirst]
        apply findCongr
        intro x hx
        cases hq : isMinIn (c :: t) x
        · apply boolFalse
          intro hP
          apply boolNotTrue hq
          rw [isMinIn_iff] at hP ⊢
          intro y hy
          exact hP y (List.mem_cons_of_mem first hy)
        · rw [isMinIn_iff] at hq ⊢
          intro y hy
          rcases List.mem_cons.mp hy with rfl | hy2
          · exact le_trans (hq c (by simp)) (le_of_lt h)
          · exact hq y hy2
      · have hfc : remaining first ≤ remaining c := not_lt.mp h
        have hsel : selectMostConstrained first (c :: t)
            = selectMostConstrained first t := by
          simp [selectMostConstrained, List.foldl_cons, if_neg h]
        rw [hsel, ← ih first]
        have hPQf : isMinIn (first :: c :: t) first = isMinIn (first :: t) first := by
          cases hq : isMinIn (first :: t) first
          · apply boolFalse
            intro hP
            apply boolNotTrue hq
            rw [isMinIn_iff] at hP ⊢
            intro y hy
            rcases List.mem_cons.mp hy with rfl | hy2
            · exact le_refl _
            · exact hP y (by simp [hy2])
          · rw [isMinIn_iff] at hq ⊢
            intro y hy
            rcases List.mem_cons.mp hy with rfl | hy2
            · exact le_refl _
            · rcases List.mem_cons.mp hy2 with rfl | hy3
              · exact hfc
              · exact hq y (by simp [hy3])
        cases hq : isMinIn (first :: t) first
        · rw [List.find?_cons_of_neg _ (boolNotTrue (hPQf.trans hq)),
              List.find?_cons_of_neg _ (boolNotTrue hq)]
          have hPc : ¬ isMinIn (first :: c :: t) c = true := by
            intro hPc
            apply boolNotTrue hq
            rw [isMinIn_iff] at hPc ⊢
            intro y hy
            rcases List.mem_cons.mp hy with rfl | hy2
            · exact le_refl _
            · exact le_trans hfc (hPc y (by simp [hy2]))
          rw [List.find?_cons_of_neg _ hPc]
          apply findCongr
          intro x hx
          cases hq2 : isMinIn (first :: t) x
          · apply boolFalse
            intro hP2
            apply boolNotTrue hq2
            rw [isMinIn_iff] at hP2 ⊢
            intro y hy
            rcases List.mem_cons.mp hy with rfl | hy2
            · exact hP2 _ (by simp)
            · exact hP2 y (by simp [hy2])
          · rw [isMinIn_iff] at hq2 ⊢
            intro y hy
            rcases List.mem_cons.mp hy with rfl | hy2
            · exact hq2 _ (by simp)
            · rcases List.mem_cons.mp hy2 with rfl | hy3
              · exact le_trans (hq2 first (by simp)) hfc
              · exact hq2 y (by simp [hy3])
        · rw [List.find?_cons_of_pos _ (hPQf.trans hq), List.find?_cons_of_pos _ hq]

/-- The concrete selection example of claim C4: daily 80/100 (remaining 20),
monthly unlimited, total 450/500 (remaining 50). -/
def usageExampleDaily : UsageInfo :=
  { daily := { cost := { used := 80, total := 100 }, tokens := 0 }
    monthly := { cost := { used := 0, total := 0 }, tokens := 0 }
    total := { cost := { used := 450, total := 500 }, tokens := 0 }
    lastUpdate := 0
    error := none }

/-- A snapshot in which no period has a configured limit. -/
def usageAllUnlimited : UsageInfo :=
  { daily := { cost := { used := 3, total := 0 }, tokens := 0 }
    monthly := { cost := { used := 4, total := 0 }, tokens := 0 }
    total := { cost := { used := 5, total := 0 }, tokens := 0 }
    lastUpdate := 0
    error := none }

/-- Claim C4: the most-constrained-limit selection considers exactly the
periods with `cost.total > 0` and returns the first period, in the fixed order
Daily, Monthly, Total, whose absolute remaining budget `total - used` is
smallest (so ties favour the earlier period); it returns no selection exactly
when no period has a configured limit, in which case the compact display falls
back to the icon-only text; and on daily 80/100, monthly 0/0, total 450/500 it
selects Daily. -/
theorem claim_C4 :
    (∀ u, getMostConstrainedLimit u = mostConstrainedSpec u)
    ∧ (∀ u, getMostConstrainedLimit u = none ↔
        u.daily.cost.total ≤ 0 ∧ u.monthly.cost.total ≤ 0 ∧ u.total.cost.total ≤ 0)
    ∧ ((getMostConstrainedLimit usageExampleDaily).map fun c => c.name) = some "Daily"
    ∧ (∀ u showAmount, getMostConstrainedLimit u = none →
        formatStatusBarText u showAmount = "$(credit-card)") := by
  have hnone : ∀ u, getMostConstrainedLimit u = none ↔ limitEntries u = [] := by
    intro u
    unfold getMostConstrainedLimit
    cases limitEntries u <;> simp
  refine ⟨?_, ?_,
    by norm_num [getMostConstrainedLimit, limitEntries, usageExampleDaily,
      selectMostConstrained, remaining], ?_⟩
  · intro u
    unfold getMostConstrainedLimit mostConstrainedSpec
    cases hL : limitEntries u with
    | nil => simp
    | cons first rest =>
        rw [selectMostConstrained_eq_find first rest]
  · intro u
    rw [hnone u]
    unfold limitEntries
    split_ifs with h1 h2 h3 <;> simp_all [not_lt]
  · intro u showAmount hu
    unfold formatStatusBarText
    rw [hu]

/-- Closed instance of claim C4 at concrete inputs. -/
theorem claim_C4_witness :
    getMostConstrainedLimit usageExampleDaily = mostConstrainedSpec usageExampleDaily
    ∧ formatStatusBarText usageAllUnlimited true = "$(credit-card)" :=
  ⟨claim_C4.1 usageExampleDaily,
   claim_C4.2.2.2 usageAllUnlimited true
     (by simp [getMostConstrainedLimit, limitEntries, usageAllUnlimited])⟩

/-- The end-to-end example snapshot of the specification: daily cost 7.5 of a
10 limit (the only configured limit, hence most constrained), monthly cost 3.2
unlimited, total unlimited. -/
def usageExampleE2E : UsageInfo :=
  { daily := { cost := { used := 15 / 2, total := 10 }, tokens := 100 }
    monthly := { cost := { used := 16 / 5, total := 0 }, tokens := 12345 }
    total := { cost := { used := 0, total := 0 }, tokens := 100 }
    lastUpdate := 0
    error := none }

/-- Claim C5 is false on the code: with daily cost used 7.5 / total 10 as the
most-constrained period, `formatStatusBarText` renders the amounts with
`toFixed(1)` — one decimal place, not two-decimal currency — and prefixes the
icon token, so the compact display is "$(credit-card) 75.0% ($7.5/$10.0)"
rather than the claimed "75.0% ($7.50/$10.00)". -/
theorem claim_C5_counterexample :
    formatStatusBarText usageExampleE2E true ≠ "75.0% ($7.50/$10.00)"
    ∧ formatStatusBarText usageExampleE2E true
        ≠ "$(credit-card) 75.0% ($7.50/$10.00)" := by
  with_unfolding_all decide

/-- Claim C5 amended: when a most-constrained limit exists and both percentage
and amounts are shown, the compact status text is the icon token followed by
the most-constrained percentage with one decimal place and the used and total
amounts each rendered with a `$` prefix and one decimal place; for daily cost
used 7.5 / total 10 as the most-constrained period the compact display is
"$(credit-card) 75.0% ($7.5/$10.0)". -/
theorem claim_C5_amended :
    (∀ u c, getMostConstrainedLimit u = some c →
        formatStatusBarText u true =
          "$(credit-card) " ++ jsToFixed c.percentage 1 ++ "% ($" ++
            jsToFixed c.used 1 ++ "/$" ++ jsToFixed c.total 1 ++ ")")
    ∧ formatStatusBarText usageExampleE2E true
        = "$(credit-card) 75.0% ($7.5/$10.0)" := by
  constructor
  · intro u c h
    unfold formatStatusBarText
    rw [h]
    rfl
  · with_unfolding_all decide

/-- Closed instance of the amended claim C5 at a concrete input. -/
theorem claim_C5_amended_witness :
    formatStatusBarText usageExampleE2E true =
      "$(credit-card) " ++ jsToFixed 75 1 ++ "% ($" ++
        jsToFixed (15 / 2) 1 ++ "/$" ++ jsToFixed 10 1 ++ ")" :=
  claim_C5_amended.1 usageExampleE2E
    { name := "Daily", used := 15 / 2, total := 10, percentage := 75 }
    (by with_unfolding_all decide)

end CrsStatus
